import Mathlib

/-!
Verification of the filter-aggregate-present pipeline of `app.py`
(Poplar Manufacturing KPI dashboard).

The dashboard loads three warehouse views into in-memory tables
(pandas DataFrames), applies user-selected boolean-mask filters, and
aggregates the filtered table into scalar KPIs and grouped series.
We embed the rows of each dataset as Lean structures, a DataFrame as a
`List` of rows (pandas preserves row order under boolean masking), and
numeric column values as `ℚ` (the guarded ratio/`mean` arithmetic of the
source involves no NaN/inf once the guards hold, so exact rationals are a
faithful carrier for the comparisons and guarded divisions performed).

Each page's filter block (`f = df.copy(); if sel: f = f[f[col].isin(sel)];
f = f[f[col].between(lo, hi)]; f = f[f[col] <= lim]`) is embedded as a
composition of the three mask combinators `filterIsin`, `filterBetween`,
`filterLe` below, in the order the statements execute.
-/

namespace PoplarApp

/-- Row of the `production` dataset (`VW_PRODUCTION_KPI`): columns used by
`page_executive` (app.py lines 188-338) and `page_energy` (lines 620-698). -/
structure ProdRow where
  DATE : String
  MONTH : String
  PLANT_NAME : String
  PRODUCT_TYPE : String
  PRODUCED_QTY : ℚ
  FPY_PERCENT : ℚ
  TOTAL_ENERGY_KWH : ℚ
deriving DecidableEq, Repr

/-- Row of the `raw_material` dataset (`VW_RAW_MATERIAL_KPI`): columns used
by `page_raw_material` (app.py lines 344-480). -/
structure RawMaterialRow where
  MONTH : String
  SUPPLIER_NAME : String
  TOTAL_LOG_QTY : ℚ
  LOG_YIELD_PERCENT : ℚ
  TOTAL_WASTE : ℚ
  AVG_COST_PER_CFT : ℚ
deriving DecidableEq, Repr

/-- Row of the `plant_summary` dataset (`VW_PLANT_SUMMARY`): columns used by
`page_plant` (app.py lines 486-614). -/
structure PlantRow where
  PLANT_NAME : String
  LOCATION : String
  CAPACITY : ℚ
  TOTAL_PRODUCTION : ℚ
  AVG_FPY_PERCENT : ℚ
  TOTAL_ENERGY_CONSUMED : ℚ
deriving DecidableEq, Repr

/-- Strict ordering on character lists by code point, used to model the
sorted group keys produced by pandas `groupby` (which sorts keys by
default) without relying on `String`'s non-reducing order instances. -/
def strListLtB : List Char → List Char → Bool
  | [], [] => false
  | [], _ :: _ => true
  | _ :: _, [] => false
  | a :: as, b :: bs =>
    if a.val < b.val then true
    else if b.val < a.val then false
    else strListLtB as bs

/-- Total `≤` comparator on strings (code-point lexicographic). -/
def strLeB (a b : String) : Bool := !(strListLtB b.data a.data)

/-- Lexicographic comparator on `(PLANT_NAME, MONTH)` pairs, for the
two-key groupby of the heatmap (app.py line 680). -/
def pairLeB (a b : String × String) : Bool :=
  if a.1 = b.1 then strLeB a.2 b.2 else strLeB a.1 b.1

/-- Insert into a list ahead of the first element not below `a`
(stable insertion step of the sort used to model pandas key ordering). -/
def orderedInsertB (le : α → α → Bool) (a : α) : List α → List α
  | [] => [a]
  | b :: l => if le a b then a :: b :: l else b :: orderedInsertB le a l

/-- Insertion sort with a boolean comparator; models the sorted output
order of pandas `groupby`/`sort_values`.  Which sorting algorithm is used
is irrelevant to every property proved below (all are invariant under
permutation of the already-deduplicated keys). -/
def sortB (le : α → α → Bool) : List α → List α
  | [] => []
  | a :: l => orderedInsertB le a (sortB le l)

theorem perm_orderedInsertB (le : α → α → Bool) (a : α) :
    ∀ l : List α, List.Perm (orderedInsertB le a l) (a :: l)
  | [] => List.Perm.refl _
  | b :: l => by
    unfold orderedInsertB
    split
    · exact List.Perm.refl _
    · exact (List.Perm.cons b (perm_orderedInsertB le a l)).trans (List.Perm.swap a b l)

theorem perm_sortB (le : α → α → Bool) : ∀ l : List α, List.Perm (sortB le l) l
  | [] => List.Perm.refl _
  | a :: l => by
    unfold sortB
    exact (perm_orderedInsertB le a (sortB le l)).trans (List.Perm.cons a (perm_sortB le l))

/-- Embedding of the guarded set-inclusion mask
`if sel: f = f[f[col].isin(sel)]` (app.py lines 229-234, 382-385,
528-529, 637-640): when the chosen set is empty (falsy in Python) the
mask is skipped entirely. -/
def filterIsin (sel : List String) (col : α → String) (f : List α) : List α :=
  if sel.isEmpty then f else f.filter (fun r => decide (col r ∈ sel))

/-- Embedding of the range mask `f = f[f[col].between(lo, hi)]`
(app.py lines 235, 386, 530, 531); pandas `between` is inclusive at both
bounds by default. -/
def filterBetween (lo hi : ℚ) (col : α → ℚ) (f : List α) : List α :=
  f.filter (fun r => decide (lo ≤ col r) && decide (col r ≤ hi))

/-- Embedding of the upper-bound mask `f = f[f[col] <= lim]`
(app.py lines 236, 387). -/
def filterLe (lim : ℚ) (col : α → ℚ) (f : List α) : List α :=
  f.filter (fun r => decide (col r ≤ lim))

/-- Filter block of `page_executive` (app.py lines 227-236): plant,
product and month set-inclusion masks, FPY range mask, energy upper
bound, applied in statement order to a copy of the snapshot. -/
def page_executive_apply (df : List ProdRow) (sel_plants sel_products sel_months : List String)
    (fpy_lo fpy_hi energy_limit : ℚ) : List ProdRow :=
  filterLe energy_limit (fun r => r.TOTAL_ENERGY_KWH)
    (filterBetween fpy_lo fpy_hi (fun r => r.FPY_PERCENT)
      (filterIsin sel_months (fun r => r.MONTH)
        (filterIsin sel_products (fun r => r.PRODUCT_TYPE)
          (filterIsin sel_plants (fun r => r.PLANT_NAME) df))))

/-- Filter block of `page_raw_material` (app.py lines 380-387). -/
def page_raw_material_apply (df : List RawMaterialRow) (sel_months sel_suppliers : List String)
    (yield_lo yield_hi cost_limit : ℚ) : List RawMaterialRow :=
  filterLe cost_limit (fun r => r.AVG_COST_PER_CFT)
    (filterBetween yield_lo yield_hi (fun r => r.LOG_YIELD_PERCENT)
      (filterIsin sel_suppliers (fun r => r.SUPPLIER_NAME)
        (filterIsin sel_months (fun r => r.MONTH) df)))

/-- Filter block of `page_plant` (app.py lines 527-531), without the final
`sort_values` (modelled separately as `plant_sort_values`). -/
def page_plant_apply (df : List PlantRow) (sel_plants : List String)
    (prod_lo prod_hi fpy_lo fpy_hi : ℚ) : List PlantRow :=
  filterBetween fpy_lo fpy_hi (fun r => r.AVG_FPY_PERCENT)
    (filterBetween prod_lo prod_hi (fun r => r.TOTAL_PRODUCTION)
      (filterIsin sel_plants (fun r => r.PLANT_NAME) df))

/-- Filter block of `page_energy` (app.py lines 636-640). -/
def page_energy_apply (df : List ProdRow) (sel_plants sel_months : List String) : List ProdRow :=
  filterIsin sel_months (fun r => r.MONTH)
    (filterIsin sel_plants (fun r => r.PLANT_NAME) df)

theorem mem_filterIsin {sel : List String} {col : α → String} {f : List α} {r : α} :
    r ∈ filterIsin sel col f ↔ r ∈ f ∧ (sel ≠ [] → col r ∈ sel) := by
  unfold filterIsin
  cases sel with
  | nil => simp
  | cons a l => simp [List.mem_filter]

theorem mem_filterBetween {lo hi : ℚ} {col : α → ℚ} {f : List α} {r : α} :
    r ∈ filterBetween lo hi col f ↔ r ∈ f ∧ lo ≤ col r ∧ col r ≤ hi := by
  simp [filterBetween, List.mem_filter]

theorem mem_filterLe {lim : ℚ} {col : α → ℚ} {f : List α} {r : α} :
    r ∈ filterLe lim col f ↔ r ∈ f ∧ col r ≤ lim := by
  simp [filterLe, List.mem_filter]

theorem filterIsin_sublist (sel : List String) (col : α → String) (f : List α) :
    (filterIsin sel col f).Sublist f := by
  unfold filterIsin
  split
  · exact List.Sublist.refl f
  · exact List.filter_sublist f

theorem filterBetween_sublist (lo hi : ℚ) (col : α → ℚ) (f : List α) :
    (filterBetween lo hi col f).Sublist f :=
  List.filter_sublist f

theorem filterLe_sublist (lim : ℚ) (col : α → ℚ) (f : List α) :
    (filterLe lim col f).Sublist f :=
  List.filter_sublist f

/-- Embedding of `f[col].sum()`: sum of one numeric column over the table. -/
def colSum (col : α → ℚ) (f : List α) : ℚ := (f.map col).sum

/-- Embedding of `f[col].mean()`: column sum over row count.  Used by the source only
on non-empty tables (every call site sits behind the `f.empty` guard). -/
def colMean (col : α → ℚ) (f : List α) : ℚ := colSum col f / (f.length : ℚ)

/-- Embedding of `f["PRODUCED_QTY"].sum()`. -/
def sumQty (f : List ProdRow) : ℚ := colSum (fun r => r.PRODUCED_QTY) f

/-- Embedding of `f["TOTAL_ENERGY_KWH"].sum()`. -/
def sumEnergy (f : List ProdRow) : ℚ := colSum (fun r => r.TOTAL_ENERGY_KWH) f

/-- Executive-page Energy/Unit KPI (app.py lines 247-250):
`f"{energy/qty:.3f}" if f["PRODUCED_QTY"].sum() > 0 else "—"`.
`none` models the dash placeholder string. -/
def energy_per_unit_kpi (f : List ProdRow) : Option ℚ :=
  if 0 < sumQty f then some (sumEnergy f / sumQty f) else none

/-- Energy-page Energy/Unit reduction, used both for the global KPI
(app.py line 649: `epu = total_energy / total_prod if total_prod > 0 else 0`)
and per group in the heatmap (line 681: same conditional inside the
groupby lambda).  The zero-denominator branch yields the number `0`,
not a sentinel. -/
def epu_of (f : List ProdRow) : ℚ :=
  if 0 < sumQty f then sumEnergy f / sumQty f else 0

/-- Embedding of `f.groupby(key)` followed by an aggregation over each group, with the
group keys deduplicated and sorted (pandas `groupby` sorts keys by
default); models lines 260, 284, 306, 320, 407-412, 431, 448, 467,
660-663 and 679-683 of app.py. -/
def groupbyAgg {κ β : Type} [DecidableEq κ] (le : κ → κ → Bool) (key : α → κ)
    (agg : List α → β) (f : List α) : List (κ × β) :=
  (sortB le (f.map key).dedup).map
    (fun k => (k, agg (f.filter (fun r => decide (key r = k)))))

/-- Derived views computed by `page_executive` after the empty-table guard
(app.py lines 242-338). -/
structure ExecView where
  total_production : ℚ
  avg_fpy : ℚ
  total_energy : ℚ
  energy_per_unit : Option ℚ
  row_count : Nat
  daily : List (String × ℚ)
  plant_fpy : List (String × ℚ)
  by_product : List (String × ℚ)
  energy_trend : List (String × ℚ)
  detail : List ProdRow
deriving DecidableEq, Repr

/-- Data pipeline of `page_executive` (app.py lines 188-338): filter, then
either the "no data" warning (`none`, lines 238-240) or the KPI tiles,
the four grouped charts and the truncated table. -/
def page_executive_view (df : List ProdRow) (sel_plants sel_products sel_months : List String)
    (fpy_lo fpy_hi energy_limit : ℚ) : Option ExecView :=
  let f := page_executive_apply df sel_plants sel_products sel_months fpy_lo fpy_hi energy_limit
  if f.isEmpty then none
  else some
    { total_production := sumQty f
      avg_fpy := colMean (fun r => r.FPY_PERCENT) f
      total_energy := sumEnergy f
      energy_per_unit := energy_per_unit_kpi f
      row_count := f.length
      daily := groupbyAgg strLeB (fun r => r.DATE) (colSum (fun r => r.PRODUCED_QTY)) f
      plant_fpy := groupbyAgg strLeB (fun r => r.PLANT_NAME) (colMean (fun r => r.FPY_PERCENT)) f
      by_product := groupbyAgg strLeB (fun r => r.PRODUCT_TYPE) (colSum (fun r => r.PRODUCED_QTY)) f
      energy_trend := groupbyAgg strLeB (fun r => r.DATE) (colSum (fun r => r.TOTAL_ENERGY_KWH)) f
      detail := f.take 200 }

/-- Column chosen by the "Group charts by" selectbox of `page_energy`
(app.py line 634). -/
inductive EnergyGroupCol where
  | plant_name
  | product_type
  | month
deriving DecidableEq, Repr

def energyGroupKey : EnergyGroupCol → ProdRow → String
  | .plant_name, r => r.PLANT_NAME
  | .product_type, r => r.PRODUCT_TYPE
  | .month, r => r.MONTH

/-- Derived views computed by `page_energy` after the empty-table guard
(app.py lines 646-698). -/
structure EnergyView where
  total_prod : ℚ
  total_energy : ℚ
  epu : ℚ
  scatter_df : List (String × ℚ × ℚ)
  heat_df : List ((String × String) × ℚ)
deriving DecidableEq, Repr

/-- Data pipeline of `page_energy` (app.py lines 620-698): filter, then either
the "no data" warning (`none`, lines 642-644) or the three KPIs, the
grouped scatter table and the Plant×Month EPU heatmap table. -/
def page_energy_view (df : List ProdRow) (sel_plants sel_months : List String)
    (group_by : EnergyGroupCol) : Option EnergyView :=
  let f := page_energy_apply df sel_plants sel_months
  if f.isEmpty then none
  else some
    { total_prod := sumQty f
      total_energy := sumEnergy f
      epu := epu_of f
      scatter_df := groupbyAgg strLeB (energyGroupKey group_by)
        (fun x => (sumQty x, sumEnergy x)) f
      heat_df := groupbyAgg pairLeB (fun r => (r.PLANT_NAME, r.MONTH)) epu_of f }

/-- Column chosen by the "Sort plants by" selectbox of `page_plant`
(app.py lines 519-523). -/
inductive PlantSortCol where
  | total_production
  | avg_fpy_percent
  | total_energy_consumed
  | capacity
deriving DecidableEq, Repr

def plantSortVal : PlantSortCol → PlantRow → ℚ
  | .total_production, r => r.TOTAL_PRODUCTION
  | .avg_fpy_percent, r => r.AVG_FPY_PERCENT
  | .total_energy_consumed, r => r.TOTAL_ENERGY_CONSUMED
  | .capacity, r => r.CAPACITY

/-- Embedding of `f.sort_values(sort_by, ascending=sort_asc)` (app.py line 532):
returns a new table ordered by the chosen column; the input is untouched
(no `inplace=True` in the source). -/
def plant_sort_values (c : PlantSortCol) (ascending : Bool) (f : List PlantRow) : List PlantRow :=
  if ascending then sortB (fun a b => decide (plantSortVal c a ≤ plantSortVal c b)) f
  else sortB (fun a b => decide (plantSortVal c b ≤ plantSortVal c a)) f

/-- Utilization metric of a plant card (app.py line 565):
`row["TOTAL_PRODUCTION"] / row["CAPACITY"] * 100 if row["CAPACITY"] > 0 else 0`. -/
def utilization (row : PlantRow) : ℚ :=
  if 0 < row.CAPACITY then row.TOTAL_PRODUCTION / row.CAPACITY * 100 else 0

/-- Named tables live during one render of `page_plant`: the snapshot
`df` returned by the loader and the working table `f`. -/
structure PlantPipelineState where
  df : List PlantRow
  f : List PlantRow
deriving DecidableEq, Repr

/-- Statement-by-statement embedding of the `page_plant` filter-and-sort
block (app.py lines 527-532) over the named-table state: `f = df.copy()`
gives `f` its own copy of the snapshot's rows, and each subsequent
statement rebinds `f` to a freshly built table (pandas boolean masks and
`sort_values` without `inplace` both return new frames). -/
def page_plant_pipeline (df0 : List PlantRow) (sel_plants : List String)
    (prod_lo prod_hi fpy_lo fpy_hi : ℚ) (c : PlantSortCol) (asc : Bool) : PlantPipelineState :=
  let s : PlantPipelineState := { df := df0, f := df0 }
  let s := { s with f := filterIsin sel_plants (fun r => r.PLANT_NAME) s.f }
  let s := { s with f := filterBetween prod_lo prod_hi (fun r => r.TOTAL_PRODUCTION) s.f }
  let s := { s with f := filterBetween fpy_lo fpy_hi (fun r => r.AVG_FPY_PERCENT) s.f }
  { s with f := plant_sort_values c asc s.f }

/-- Named tables live during one render of `page_executive`. -/
structure ExecPipelineState where
  df : List ProdRow
  f : List ProdRow
deriving DecidableEq, Repr

/-- Statement-by-statement embedding of the `page_executive` filter block
(app.py lines 227-236) over the named-table state, starting from
`f = df.copy()`. -/
def page_executive_pipeline (df0 : List ProdRow) (sel_plants sel_products sel_months : List String)
    (fpy_lo fpy_hi energy_limit : ℚ) : ExecPipelineState :=
  let s : ExecPipelineState := { df := df0, f := df0 }
  let s := { s with f := filterIsin sel_plants (fun r => r.PLANT_NAME) s.f }
  let s := { s with f := filterIsin sel_products (fun r => r.PRODUCT_TYPE) s.f }
  let s := { s with f := filterIsin sel_months (fun r => r.MONTH) s.f }
  let s := { s with f := filterBetween fpy_lo fpy_hi (fun r => r.FPY_PERCENT) s.f }
  { s with f := filterLe energy_limit (fun r => r.TOTAL_ENERGY_KWH) s.f }

theorem sum_map_indicator_zero {κ : Type} [DecidableEq κ] (k0 : κ) :
    ∀ ks : List κ, k0 ∉ ks → (ks.map (fun k => if k0 = k then 1 else 0)).sum = 0
  | [], _ => rfl
  | b :: ks, h => by
    have hb : k0 ≠ b := fun he => h (he ▸ List.mem_cons_self b ks)
    have ht : k0 ∉ ks := fun hm => h (List.mem_cons_of_mem b hm)
    simp [hb, sum_map_indicator_zero k0 ks ht]

theorem sum_map_indicator_one {κ : Type} [DecidableEq κ] (k0 : κ) :
    ∀ ks : List κ, ks.Nodup → k0 ∈ ks →
      (ks.map (fun k => if k0 = k then 1 else 0)).sum = 1
  | [], _, hm => absurd hm (List.not_mem_nil k0)
  | b :: ks, hnd, hm => by
    rcases List.mem_cons.mp hm with he | ht
    · subst he
      have : k0 ∉ ks := (List.nodup_cons.mp hnd).1
      simp [sum_map_indicator_zero k0 ks this]
    · have hb : k0 ≠ b := by
        intro he
        subst he
        exact (List.nodup_cons.mp hnd).1 ht
      simp [hb, sum_map_indicator_one k0 ks (List.nodup_cons.mp hnd).2 ht]

theorem sum_map_add_nat {κ : Type} (g h : κ → ℕ) :
    ∀ ks : List κ, (ks.map (fun k => g k + h k)).sum = (ks.map g).sum + (ks.map h).sum
  | [] => rfl
  | b :: ks => by
    simp [sum_map_add_nat g h ks]
    omega

/-- Counting lemma behind the groupby partition property: over any
duplicate-free list of keys covering the table, the group sizes add up
to the table's row count. -/
theorem sum_group_sizes {κ : Type} [DecidableEq κ] (key : α → κ) :
    ∀ (f : List α) (ks : List κ), ks.Nodup → (∀ r ∈ f, key r ∈ ks) →
      (ks.map (fun k => (f.filter (fun r => decide (key r = k))).length)).sum = f.length
  | [], ks, _, _ => by simp
  | a :: f, ks, hnd, hcov => by
    have hrec := sum_group_sizes key f ks hnd (fun r hr => hcov r (List.mem_cons_of_mem a hr))
    have hsplit :
        (ks.map (fun k => ((a :: f).filter (fun r => decide (key r = k))).length)).sum
          = (ks.map (fun k => (f.filter (fun r => decide (key r = k))).length)).sum
            + (ks.map (fun k => if key a = k then 1 else 0)).sum := by
      have hfun : (fun k => ((a :: f).filter (fun r => decide (key r = k))).length)
          = fun k => (f.filter (fun r => decide (key r = k))).length
            + if key a = k then 1 else 0 := by
        funext k
        by_cases hk : key a = k <;> simp [List.filter_cons, hk]
      rw [hfun, sum_map_add_nat]
    rw [hsplit, hrec, sum_map_indicator_one (key a) ks hnd (hcov a (List.mem_cons_self a f))]
    simp [Nat.add_comm]

theorem groupbyAgg_map_fst {κ β : Type} [DecidableEq κ] (le : κ → κ → Bool) (key : α → κ)
    (agg : List α → β) (f : List α) :
    (groupbyAgg le key agg f).map Prod.fst = sortB le (f.map key).dedup := by
  simp only [groupbyAgg, List.map_map]
  exact List.map_id (sortB le (f.map key).dedup)

theorem mem_groupbyAgg_val {κ β : Type} [DecidableEq κ] {le : κ → κ → Bool} {key : α → κ}
    {agg : List α → β} {f : List α} {k : κ} {v : β} :
    (k, v) ∈ groupbyAgg le key agg f → v = agg (f.filter (fun r => decide (key r = k))) := by
  intro hm
  rcases List.mem_map.mp hm with ⟨k1, _, heq⟩
  have hk : k1 = k := congrArg Prod.fst heq
  have hv : agg (f.filter (fun r => decide (key r = k1))) = v := congrArg Prod.snd heq
  rw [← hv, hk]

theorem filterIsin_eq_self_of_mem {sel : List String} {col : α → String} {f : List α}
    (h : ∀ r ∈ f, col r ∈ sel) : filterIsin sel col f = f := by
  unfold filterIsin
  split
  · rfl
  · exact List.filter_eq_self.mpr (fun r hr => decide_eq_true (h r hr))

/-- Concrete production row: plant A, 10 units, 5 kWh. -/
def rowA : ProdRow :=
  { DATE := "2025-01-01", MONTH := "2025-01", PLANT_NAME := "A", PRODUCT_TYPE := "Ply",
    PRODUCED_QTY := 10, FPY_PERCENT := 95, TOTAL_ENERGY_KWH := 5 }

/-- Concrete production row: plant B, 0 units, 0 kWh. -/
def rowB : ProdRow :=
  { DATE := "2025-01-02", MONTH := "2025-01", PLANT_NAME := "B", PRODUCT_TYPE := "Board",
    PRODUCED_QTY := 0, FPY_PERCENT := 90, TOTAL_ENERGY_KWH := 0 }

/-- Two-row production snapshot used as concrete input in witnesses. -/
def snapAB : List ProdRow := [rowA, rowB]

/-- Production row with the given FPY value (all other columns fixed),
used for the inclusive-bounds scenario of §8 of the spec. -/
def fpyRow (q : ℚ) : ProdRow :=
  { DATE := "d", MONTH := "m", PLANT_NAME := "P", PRODUCT_TYPE := "T",
    PRODUCED_QTY := 1, FPY_PERCENT := q, TOTAL_ENERGY_KWH := 0 }

/-- Table whose FPY column carries the values 9, 10, 15, 20, 21. -/
def fpyValuesTbl : List ProdRow := [fpyRow 9, fpyRow 10, fpyRow 15, fpyRow 20, fpyRow 21]

/-- Single-row table whose produced-quantity sum is zero while energy is
positive: the zero-denominator case of the Energy/Unit ratio. -/
def tblZeroDen : List ProdRow :=
  [{ DATE := "2025-01-03", MONTH := "2025-01", PLANT_NAME := "B", PRODUCT_TYPE := "Ply",
     PRODUCED_QTY := 0, FPY_PERCENT := 90, TOTAL_ENERGY_KWH := 5 }]

/-- Single-row table whose ratio is genuinely zero (positive quantity,
zero energy). -/
def tblZeroRatio : List ProdRow :=
  [{ DATE := "2025-01-04", MONTH := "2025-01", PLANT_NAME := "C", PRODUCT_TYPE := "Ply",
     PRODUCED_QTY := 5, FPY_PERCENT := 90, TOTAL_ENERGY_KWH := 0 }]

/-- Concrete plant-summary row with positive capacity. -/
def plantP : PlantRow :=
  { PLANT_NAME := "P1", LOCATION := "L", CAPACITY := 500, TOTAL_PRODUCTION := 250,
    AVG_FPY_PERCENT := 95, TOTAL_ENERGY_CONSUMED := 100 }

/-- Concrete plant-summary row with capacity zero. -/
def plantZeroCap : PlantRow :=
  { PLANT_NAME := "P0", LOCATION := "L", CAPACITY := 0, TOTAL_PRODUCTION := 10,
    AVG_FPY_PERCENT := 90, TOTAL_ENERGY_CONSUMED := 50 }

/-- C2: every row surviving the executive-page filter block satisfies each
active predicate (set inclusion for plants, products and months — active
when the chosen set is non-empty — both range bounds, and the energy upper
bound), and likewise for the raw-material page: the masks compose by
logical AND in statement order. -/
theorem filtered_rows_satisfy_predicates
    (df : List ProdRow) (sp spr sm : List String) (lo hi lim : ℚ)
    (df2 : List RawMaterialRow) (sm2 ss : List String) (ylo yhi clim : ℚ) :
    (∀ r ∈ page_executive_apply df sp spr sm lo hi lim,
        (sp ≠ [] → r.PLANT_NAME ∈ sp) ∧ (spr ≠ [] → r.PRODUCT_TYPE ∈ spr)
          ∧ (sm ≠ [] → r.MONTH ∈ sm) ∧ lo ≤ r.FPY_PERCENT ∧ r.FPY_PERCENT ≤ hi
          ∧ r.TOTAL_ENERGY_KWH ≤ lim)
  ∧ (∀ r ∈ page_raw_material_apply df2 sm2 ss ylo yhi clim,
        (sm2 ≠ [] → r.MONTH ∈ sm2) ∧ (ss ≠ [] → r.SUPPLIER_NAME ∈ ss)
          ∧ ylo ≤ r.LOG_YIELD_PERCENT ∧ r.LOG_YIELD_PERCENT ≤ yhi
          ∧ r.AVG_COST_PER_CFT ≤ clim) := by
  constructor
  · intro r hr
    unfold page_executive_apply at hr
    rcases mem_filterLe.mp hr with ⟨hr, hlim⟩
    rcases mem_filterBetween.mp hr with ⟨hr, hlo, hhi⟩
    rcases mem_filterIsin.mp hr with ⟨hr, hmo⟩
    rcases mem_filterIsin.mp hr with ⟨hr, hpr⟩
    rcases mem_filterIsin.mp hr with ⟨_, hpl⟩
    exact ⟨hpl, hpr, hmo, hlo, hhi, hlim⟩
  · intro r hr
    unfold page_raw_material_apply at hr
    rcases mem_filterLe.mp hr with ⟨hr, hlim⟩
    rcases mem_filterBetween.mp hr with ⟨hr, hlo, hhi⟩
    rcases mem_filterIsin.mp hr with ⟨hr, hsu⟩
    rcases mem_filterIsin.mp hr with ⟨_, hmo⟩
    exact ⟨hmo, hsu, hlo, hhi, hlim⟩

theorem filtered_rows_satisfy_predicates_witness :
    ((["A"] : List String) ≠ [] → rowA.PLANT_NAME ∈ (["A"] : List String))
  ∧ ((["Ply"] : List String) ≠ [] → rowA.PRODUCT_TYPE ∈ (["Ply"] : List String))
  ∧ ((["2025-01"] : List String) ≠ [] → rowA.MONTH ∈ (["2025-01"] : List String))
  ∧ (0 : ℚ) ≤ rowA.FPY_PERCENT ∧ rowA.FPY_PERCENT ≤ (100 : ℚ)
  ∧ rowA.TOTAL_ENERGY_KWH ≤ (10 : ℚ) :=
  (filtered_rows_satisfy_predicates snapAB ["A"] ["Ply"] ["2025-01"] 0 100 10
    [] [] [] 0 0 0).1 rowA (by decide)

/-- C3: the executive-page and raw-material-page filter blocks return
sublists of the snapshot: a subsequence in the original row order (the
masks never reorder rows). -/
theorem filter_preserves_order_sublist
    (df : List ProdRow) (sp spr sm : List String) (lo hi lim : ℚ)
    (df2 : List RawMaterialRow) (sm2 ss : List String) (ylo yhi clim : ℚ) :
    (page_executive_apply df sp spr sm lo hi lim).Sublist df
  ∧ (page_raw_material_apply df2 sm2 ss ylo yhi clim).Sublist df2 := by
  constructor
  · exact (filterLe_sublist _ _ _).trans ((filterBetween_sublist _ _ _ _).trans
      ((filterIsin_sublist _ _ _).trans ((filterIsin_sublist _ _ _).trans
        (filterIsin_sublist _ _ _))))
  · exact (filterLe_sublist _ _ _).trans ((filterBetween_sublist _ _ _ _).trans
      ((filterIsin_sublist _ _ _).trans (filterIsin_sublist _ _ _)))

/-- C4: the FPY range mask keeps both endpoints (pandas `between` is
inclusive by default) and the energy upper bound keeps the boundary value
(`<=`); on the FPY values 9, 10, 15, 20, 21 the range `[10, 20]` retains
exactly 10, 15, 20 (with the energy limit sitting exactly at the rows'
energy value, so the upper bound's inclusivity is exercised too). -/
theorem range_and_upper_bounds_inclusive :
    (∀ (df : List ProdRow) (lo hi lim : ℚ) (r : ProdRow),
        r ∈ page_executive_apply df [] [] [] lo hi lim ↔
          r ∈ df ∧ lo ≤ r.FPY_PERCENT ∧ r.FPY_PERCENT ≤ hi ∧ r.TOTAL_ENERGY_KWH ≤ lim)
  ∧ ((page_executive_apply fpyValuesTbl [] [] [] 10 20 0).map (fun r => r.FPY_PERCENT)
        = [10, 15, 20]) := by
  constructor
  · intro df lo hi lim r
    unfold page_executive_apply
    simp [mem_filterLe, mem_filterBetween, mem_filterIsin]
    tauto
  · decide

/-- C8: with every multiselect empty and the two sliders at their default
full span (the "no active predicates" filter state: the FPY range covers
every row and the energy limit bounds every row, which is how the widgets
initialise on lines 206-225 of app.py), the executive-page filter block
returns the snapshot unchanged. -/
theorem empty_filter_state_identity (df : List ProdRow) (lo hi lim : ℚ)
    (h : ∀ r ∈ df, lo ≤ r.FPY_PERCENT ∧ r.FPY_PERCENT ≤ hi ∧ r.TOTAL_ENERGY_KWH ≤ lim) :
    page_executive_apply df [] [] [] lo hi lim = df := by
  have h1 : filterBetween lo hi (fun r => r.FPY_PERCENT) df = df :=
    List.filter_eq_self.mpr (fun r hr => by
      rw [Bool.and_eq_true]
      exact ⟨decide_eq_true (h r hr).1, decide_eq_true (h r hr).2.1⟩)
  have h2 : filterLe lim (fun r => r.TOTAL_ENERGY_KWH) df = df :=
    List.filter_eq_self.mpr (fun r hr => decide_eq_true (h r hr).2.2)
  unfold page_executive_apply
  simp only [filterIsin, List.isEmpty_nil, if_pos]
  rw [h1, h2]

theorem empty_filter_state_identity_witness :
    page_executive_apply snapAB [] [] [] 0 100 10 = snapAB :=
  empty_filter_state_identity snapAB 0 100 10 (by decide)

/-- C10: the plant-card utilization metric equals
TOTAL_PRODUCTION / CAPACITY * 100 whenever CAPACITY is positive and is
exactly the number 0 otherwise; the guard makes the division total (no
raised error) and the result stays a plain numeric value, never the
dash sentinel used by the ratio KPIs. -/
theorem utilization_guard (row : PlantRow) :
    (0 < row.CAPACITY → utilization row = row.TOTAL_PRODUCTION / row.CAPACITY * 100)
  ∧ (¬ 0 < row.CAPACITY → utilization row = 0) := by
  constructor <;> intro h <;> simp [utilization, h]

theorem utilization_guard_witness :
    utilization plantP = plantP.TOTAL_PRODUCTION / plantP.CAPACITY * 100
  ∧ utilization plantZeroCap = 0 :=
  ⟨(utilization_guard plantP).1 (by decide),
   (utilization_guard plantZeroCap).2 (by decide)⟩

/-- C1 (counterexample): the claim that every ratio reduction returns an
explicit "undefined" sentinel on zero denominator fails on the energy
page.  On `tblZeroDen` the produced-quantity sum is 0, yet the
energy-page Energy/Unit KPI (app.py line 649) evaluates to the number 0 —
the same value it takes on `tblZeroRatio`, whose ratio is a genuine 0 —
so no marker distinguishes the undefined case, and the Plant×Month
heatmap cell (line 681) carries the number 0 as well; only the
executive-page KPI (line 249) yields the dash placeholder. -/
theorem energy_epu_zero_denominator_not_sentinel :
    sumQty tblZeroDen = 0
  ∧ epu_of tblZeroDen = 0
  ∧ 0 < sumQty tblZeroRatio
  ∧ epu_of tblZeroRatio = 0
  ∧ energy_per_unit_kpi tblZeroDen = none
  ∧ groupbyAgg pairLeB (fun r => (r.PLANT_NAME, r.MONTH)) epu_of tblZeroDen
      = [(("B", "2025-01"), 0)] := by
  refine ⟨?_, ?_, ?_, ?_, ?_, ?_⟩ <;>
    norm_num [sumQty, sumEnergy, colSum, tblZeroDen, tblZeroRatio, epu_of,
      energy_per_unit_kpi, groupbyAgg, sortB, orderedInsertB]

/-- C1 (amended): every ratio reduction guards its zero-denominator case,
so no division error is raised and no NaN/inf reaches the output; with a
positive denominator each returns numerator sum over denominator sum.
The policy is not uniform, however: the executive-page Energy/Unit KPI
maps a zero denominator to the dash sentinel (`none`), while the
energy-page Energy/Unit KPI and every per-group ratio of the Plant×Month
heatmap map it to the number 0. -/
theorem ratio_zero_denominator_policy (f : List ProdRow) :
    (sumQty f ≤ 0 → energy_per_unit_kpi f = none ∧ epu_of f = 0)
  ∧ (0 < sumQty f → energy_per_unit_kpi f = some (sumEnergy f / sumQty f)
      ∧ epu_of f = sumEnergy f / sumQty f)
  ∧ (∀ k v, (k, v) ∈ groupbyAgg pairLeB (fun r => (r.PLANT_NAME, r.MONTH)) epu_of f →
      sumQty (f.filter (fun r => decide ((r.PLANT_NAME, r.MONTH) = k))) ≤ 0 → v = 0) := by
  refine ⟨fun h => ?_, fun h => ?_, fun k v hm hden => ?_⟩
  · have hn : ¬ 0 < sumQty f := not_lt.mpr h
    simp [energy_per_unit_kpi, epu_of, hn]
  · simp [energy_per_unit_kpi, epu_of, h]
  · have hv := mem_groupbyAgg_val hm
    have hn : ¬ 0 < sumQty (f.filter (fun r => decide ((r.PLANT_NAME, r.MONTH) = k))) :=
      not_lt.mpr hden
    rw [hv]
    simp [epu_of, hn]

theorem ratio_zero_denominator_policy_witness :
    energy_per_unit_kpi tblZeroDen = none ∧ epu_of tblZeroDen = 0 :=
  (ratio_zero_denominator_policy tblZeroDen).1
    (by norm_num [sumQty, colSum, tblZeroDen])

/-- C5: when the filter block leaves zero rows, both the executive page
and the energy page return the "no data" signal (`none`, rendered as the
warning banner) and short-circuit: the `none` branch contains no KPI
reduction, ratio or groupby, so no arithmetic over the empty table is
attempted. -/
theorem empty_filtered_table_short_circuits
    (df : List ProdRow) (sp spr sm : List String) (lo hi lim : ℚ)
    (dfe : List ProdRow) (sp2 sm2 : List String) (g : EnergyGroupCol)
    (h : page_executive_apply df sp spr sm lo hi lim = [])
    (h2 : page_energy_apply dfe sp2 sm2 = []) :
    page_executive_view df sp spr sm lo hi lim = none
  ∧ page_energy_view dfe sp2 sm2 g = none := by
  constructor
  · simp [page_executive_view, h]
  · simp [page_energy_view, h2]

theorem empty_filtered_table_short_circuits_witness :
    page_executive_view snapAB ["Z"] [] [] 0 100 10 = none
  ∧ page_energy_view snapAB ["Z"] [] EnergyGroupCol.plant_name = none :=
  empty_filtered_table_short_circuits snapAB ["Z"] [] [] 0 100 10 snapAB ["Z"] []
    EnergyGroupCol.plant_name (by decide) (by decide)

theorem filterIsin_nil (col : α → String) (f : List α) : filterIsin [] col f = f := rfl

/-- C6: an empty chosen set follows the single policy "all pass" on every
set-inclusion filter of the program: on each of the four pages, leaving
every multiselect empty filters exactly as selecting every value present
in the snapshot does (and on the energy page, whose filters are all
set-inclusion, it returns the snapshot unchanged — in particular the
policy is not "none pass", as the final non-empty concrete case shows). -/
theorem empty_selection_policy_all_pass :
    (∀ (df : List ProdRow) (lo hi lim : ℚ),
        page_executive_apply df [] [] [] lo hi lim
          = page_executive_apply df (df.map (fun r => r.PLANT_NAME))
              (df.map (fun r => r.PRODUCT_TYPE)) (df.map (fun r => r.MONTH)) lo hi lim)
  ∧ (∀ (df : List RawMaterialRow) (ylo yhi clim : ℚ),
        page_raw_material_apply df [] [] ylo yhi clim
          = page_raw_material_apply df (df.map (fun r => r.MONTH))
              (df.map (fun r => r.SUPPLIER_NAME)) ylo yhi clim)
  ∧ (∀ (df : List PlantRow) (plo phi flo fhi : ℚ),
        page_plant_apply df [] plo phi flo fhi
          = page_plant_apply df (df.map (fun r => r.PLANT_NAME)) plo phi flo fhi)
  ∧ (∀ df : List ProdRow, page_energy_apply df [] [] = df)
  ∧ (page_energy_apply snapAB [] [] = snapAB ∧ snapAB ≠ []) := by
  refine ⟨?_, ?_, ?_, fun df => rfl, rfl, by decide⟩
  · intro df lo hi lim
    have hp : filterIsin (df.map (fun r => r.PLANT_NAME)) (fun r => r.PLANT_NAME) df = df :=
      filterIsin_eq_self_of_mem (fun r hr => List.mem_map_of_mem _ hr)
    have hpr : filterIsin (df.map (fun r => r.PRODUCT_TYPE)) (fun r => r.PRODUCT_TYPE) df = df :=
      filterIsin_eq_self_of_mem (fun r hr => List.mem_map_of_mem _ hr)
    have hm : filterIsin (df.map (fun r => r.MONTH)) (fun r => r.MONTH) df = df :=
      filterIsin_eq_self_of_mem (fun r hr => List.mem_map_of_mem _ hr)
    unfold page_executive_apply
    rw [filterIsin_nil, filterIsin_nil, filterIsin_nil, hp, hpr, hm]
  · intro df ylo yhi clim
    have hm : filterIsin (df.map (fun r => r.MONTH)) (fun r => r.MONTH) df = df :=
      filterIsin_eq_self_of_mem (fun r hr => List.mem_map_of_mem _ hr)
    have hs : filterIsin (df.map (fun r => r.SUPPLIER_NAME)) (fun r => r.SUPPLIER_NAME) df = df :=
      filterIsin_eq_self_of_mem (fun r hr => List.mem_map_of_mem _ hr)
    unfold page_raw_material_apply
    rw [filterIsin_nil, filterIsin_nil, hm, hs]
  · intro df plo phi flo fhi
    have hp : filterIsin (df.map (fun r => r.PLANT_NAME)) (fun r => r.PLANT_NAME) df = df :=
      filterIsin_eq_self_of_mem (fun r hr => List.mem_map_of_mem _ hr)
    unfold page_plant_apply
    rw [filterIsin_nil, hp]

/-- C7: every grouped series built by the pipeline's groupby has exactly
one output row per distinct key (no duplicate key tuples), every output
group draws from at least one source row (no zero-fill), and the group
sizes add up to the filtered table's row count. -/
theorem groupby_partition {κ β : Type} [DecidableEq κ]
    (le : κ → κ → Bool) (key : α → κ) (agg : List α → β) (f : List α) :
    ((groupbyAgg le key agg f).map Prod.fst).Nodup
  ∧ (∀ k ∈ (groupbyAgg le key agg f).map Prod.fst,
        f.filter (fun r => decide (key r = k)) ≠ [])
  ∧ (((groupbyAgg le key agg f).map Prod.fst).map
        (fun k => (f.filter (fun r => decide (key r = k))).length)).sum = f.length := by
  rw [groupbyAgg_map_fst]
  have hperm : List.Perm (sortB le (f.map key).dedup) (f.map key).dedup := perm_sortB _ _
  refine ⟨hperm.symm.nodup (List.nodup_dedup _), ?_, ?_⟩
  · intro k hk
    have hk2 : k ∈ (f.map key).dedup := hperm.mem_iff.mp hk
    rcases List.mem_map.mp (List.mem_dedup.mp hk2) with ⟨r, hr, hkey⟩
    have hmemf : r ∈ f.filter (fun r => decide (key r = k)) :=
      List.mem_filter.mpr ⟨hr, decide_eq_true hkey⟩
    exact List.ne_nil_of_mem hmemf
  · have hmap := hperm.map (fun k => (f.filter (fun r => decide (key r = k))).length)
    rw [hmap.sum_eq]
    exact sum_group_sizes key f (f.map key).dedup (List.nodup_dedup _)
      (fun r hr => List.mem_dedup.mpr (List.mem_map_of_mem key hr))

theorem groupby_partition_witness :
    (((groupbyAgg strLeB (fun r : ProdRow => r.PLANT_NAME)
        (colSum (fun r => r.PRODUCED_QTY)) snapAB).map Prod.fst).map
      (fun k => (snapAB.filter (fun r => decide (r.PLANT_NAME = k))).length)).sum
      = snapAB.length :=
  (groupby_partition strLeB (fun r => r.PLANT_NAME)
    (colSum (fun r => r.PRODUCED_QTY)) snapAB).2.2

/-- C9: the snapshot is never mutated by filtering or sorting: running the
plant page's filter-and-sort block (which starts from `f = df.copy()` and
uses only mask selections and a non-inplace `sort_values`) leaves the
snapshot binding equal to the input, and the working table is a fresh
value, the filter-then-sort of the input; likewise for the executive
page's filter block. -/
theorem pipelines_do_not_mutate_snapshot
    (df0 : List PlantRow) (sel : List String) (plo phi flo fhi : ℚ)
    (c : PlantSortCol) (asc : Bool)
    (dfe : List ProdRow) (sp spr sm : List String) (lo hi lim : ℚ) :
    (page_plant_pipeline df0 sel plo phi flo fhi c asc).df = df0
  ∧ (page_plant_pipeline df0 sel plo phi flo fhi c asc).f
      = plant_sort_values c asc (page_plant_apply df0 sel plo phi flo fhi)
  ∧ (page_executive_pipeline dfe sp spr sm lo hi lim).df = dfe
  ∧ (page_executive_pipeline dfe sp spr sm lo hi lim).f
      = page_executive_apply dfe sp spr sm lo hi lim :=
  ⟨rfl, rfl, rfl, rfl⟩

end PoplarApp
